import Mathlib

/-!
Verification of the Teaclave management-service enclave bootstrap
(`services/management/enclave/src/lib.rs`).

The file embeds `start_service` and `handle_start_service` shallowly:
external crates (attestation, TLS config builders, the management service
implementation) are represented by an environment `ExtEnv` of result-supplying
functions, while every decision made in `lib.rs` itself — the order of the
steps, which failures are propagated with `?` and which are `unwrap`/`expect`
panics, which arguments are passed to each config builder — is modelled
directly from the source.  `start_service` returns a `StartTrace` recording
the events that occurred (in order), the endpoint configurations that were
built, and the final outcome (`ok`, a returned error, or a panic).
-/

/-- Bytes are modelled as lists of naturals. -/
abbrev Bytes := List Nat

/-- Modelled from the spec: a PeerIdentity — an opaque expected integrity
measurement of a peer enclave (teaclave_types::EnclaveAttr, not under src/). -/
structure EnclaveAttr where
  measurement : Nat
deriving DecidableEq, Repr

/-- Modelled from the spec: a verified TrustManifest — a read-only mapping
from peer role name to PeerIdentity (teaclave_types::EnclaveInfo, not under
src/). -/
structure EnclaveInfo where
  entries : List (String × EnclaveAttr)
deriving DecidableEq, Repr

/-- Modelled from the spec: role lookup in the trust manifest
(`EnclaveInfo::get_enclave_attr`, not under src/); returns the PeerIdentity
for a role name, or nothing when the role is absent from the manifest. -/
def EnclaveInfo.get_enclave_attr (ei : EnclaveInfo) (role : String) : Option EnclaveAttr :=
  (ei.entries.find? (fun p => p.1 == role)).map (fun p => p.2)

/-- The attestation section of the runtime configuration
(`config.attestation`: algorithm, url, key, spid). -/
structure AttestationSection where
  algorithm : String
  url : String
  key : String
  spid : String
deriving DecidableEq, Repr

/-- The audit section of the runtime configuration
(`config.audit.enclave_info_bytes`, `config.audit.auditor_signatures_bytes`);
both fields are optional in `RuntimeConfig`. -/
structure AuditSection where
  enclave_info_bytes : Option Bytes
  auditor_signatures_bytes : Option Bytes
deriving DecidableEq, Repr

/-- The runtime configuration fields read by `start_service`. -/
structure RuntimeConfig where
  management_listen_address : String
  storage_advertised_address : String
  attestation : AttestationSection
  audit : AuditSection
deriving DecidableEq, Repr

/-- Modelled from the spec: the build-time constants of `BUILD_CONFIG`
(not under src/): the attestation-service root CA certificate, the auditor
public keys, and the inbound allow-list for the management surface. -/
structure BuildConfig where
  as_root_ca_cert : Bytes
  auditor_public_keys : List Bytes
  inbound_management : List String
deriving DecidableEq, Repr

/-- `const AS_ROOT_CA_CERT: &[u8] = BUILD_CONFIG.as_root_ca_cert;` (line 47). -/
def AS_ROOT_CA_CERT (bc : BuildConfig) : Bytes := bc.as_root_ca_cert

/-- `const AUDITOR_PUBLIC_KEYS ... = BUILD_CONFIG.auditor_public_keys;`
(lines 48-49). -/
def AUDITOR_PUBLIC_KEYS (bc : BuildConfig) : List Bytes := bc.auditor_public_keys

/-- `const INBOUND_SERVICES ... = BUILD_CONFIG.inbound.management;`
(lines 50-51): the allow-list of peer roles accepted inbound. -/
def INBOUND_SERVICES (bc : BuildConfig) : List String := bc.inbound_management

/-- `AttestationConfig::new(algorithm, url, key, spid)` (lines 56-61). -/
structure AttestationConfig where
  algorithm : String
  url : String
  key : String
  spid : String
deriving DecidableEq, Repr

/-- Constructor mirroring `AttestationConfig::new`. -/
def AttestationConfig.new (algorithm url key spid : String) : AttestationConfig :=
  ⟨algorithm, url, key, spid⟩

/-- The attestation config built by `start_service` from the runtime
configuration (lines 55-61). -/
def attCfgOf (config : RuntimeConfig) : AttestationConfig :=
  AttestationConfig.new config.attestation.algorithm config.attestation.url
    config.attestation.key config.attestation.spid

/-- Modelled from the spec: the endorsed remote attestation returned by
`RemoteAttestation::generate_and_endorse` (not under src/); opaque here. -/
structure EndorsedAttestation where
  id : Nat
deriving DecidableEq, Repr

/-- Modelled from the spec: the AttestedChannelMaterial — a transport
identity whose certificate embeds the attestation evidence
(`AttestedTlsConfig`, not under src/); opaque here. -/
structure AttestedTlsConfig where
  id : Nat
deriving DecidableEq, Repr

/-- Modelled from the spec: the quote-verification functions exported by the
attestation crate's `verifier` module (not under src/); `lib.rs` uses only
`verifier::universal_quote_verifier`. -/
inductive QuoteVerifier where
  | universal_quote_verifier
deriving DecidableEq, Repr

/-- The inbound TLS server configuration: the attested TLS material it wraps
plus the accepted peer identities, root CA certificate and quote-verifier
reference installed by `attestation_report_verifier` (lines 89-96). -/
structure SgxTrustedTlsServerConfig where
  tls : AttestedTlsConfig
  accepted : List EnclaveAttr
  rootCa : Bytes
  verifier : Option QuoteVerifier
deriving DecidableEq, Repr

/-- `SgxTrustedTlsServerConfig::attestation_report_verifier(attrs, cert, v)`
(lines 91-96): installs the accepted identities, the root CA certificate and
the verifier function on the config; fallible in the source (`.unwrap()`), so
the external success flag `ok` selects the result. -/
def SgxTrustedTlsServerConfig.attestation_report_verifier (ok : Bool)
    (c : SgxTrustedTlsServerConfig) (attrs : List EnclaveAttr) (cert : Bytes)
    (v : QuoteVerifier) : Option SgxTrustedTlsServerConfig :=
  if ok then some ⟨c.tls, attrs, cert, some v⟩ else none

/-- The outbound TLS client configuration (lines 106-111). -/
structure SgxTrustedTlsClientConfig where
  accepted : List EnclaveAttr
  rootCa : Bytes
  verifier : Option QuoteVerifier
deriving DecidableEq, Repr

/-- `SgxTrustedTlsClientConfig::new()` (line 106): an empty client config. -/
def SgxTrustedTlsClientConfig.new : SgxTrustedTlsClientConfig :=
  ⟨[], [], none⟩

/-- `SgxTrustedTlsClientConfig::attestation_report_verifier(attrs, cert, v)`
(lines 107-111): installs the accepted identities, root CA certificate and
verifier function; infallible at this call site (no `unwrap` in the source). -/
def SgxTrustedTlsClientConfig.attestation_report_verifier
    (_c : SgxTrustedTlsClientConfig) (attrs : List EnclaveAttr) (cert : Bytes)
    (v : QuoteVerifier) : SgxTrustedTlsClientConfig :=
  ⟨attrs, cert, some v⟩

/-- `Endpoint` (lines 115-116): target address plus an optional client
config. -/
structure Endpoint where
  address : String
  cfg : Option SgxTrustedTlsClientConfig
deriving DecidableEq, Repr

/-- `Endpoint::new(address)` (line 116). -/
def Endpoint.new (address : String) : Endpoint := ⟨address, none⟩

/-- `Endpoint::config(client_config)` (line 116). -/
def Endpoint.config (e : Endpoint) (c : SgxTrustedTlsClientConfig) : Endpoint :=
  ⟨e.address, some c⟩

/-- `SgxTrustedTlsServer::new(listen_address, server_config)` (lines 97-101). -/
structure SgxTrustedTlsServer where
  addr : String
  cfg : SgxTrustedTlsServerConfig
deriving DecidableEq, Repr

/-- Constructor mirroring `SgxTrustedTlsServer::new`. -/
def SgxTrustedTlsServer.new (addr : String) (c : SgxTrustedTlsServerConfig) :
    SgxTrustedTlsServer := ⟨addr, c⟩

/-- Modelled from the spec: the management service business-logic object
(`service::TeaclaveManagementService`, whose module is not under src/);
opaque here, remembering the storage endpoint it was given. -/
structure TeaclaveManagementService where
  storage_endpoint : Endpoint
deriving DecidableEq, Repr

/-- The internal error values `start_service` can return with `?`:
manifest verification failure (line 80) or management-service construction
failure (line 118).  `anyhow::Error` payloads are collapsed to the tag. -/
inductive StartError where
  | manifestVerification
  | serviceCreation
deriving DecidableEq, Repr

/-- The outcome of `start_service`: a normal return (`Ok(())`), a returned
error (via `?`), or a panic (via `unwrap`/`expect`, with the panic
message). -/
inductive Outcome where
  | ok
  | err : StartError → Outcome
  | panicked : String → Outcome
deriving DecidableEq, Repr

/-- Modelled from the spec: the host-facing error enum
(`teaclave_types::TeeServiceError`, not under src/); `handle_start_service`
uses only the opaque `ServiceError` variant. -/
inductive TeeServiceError where
  | ServiceError
deriving DecidableEq, Repr

/-- The result of `handle_start_service` as seen by the host: success
(`StartServiceOutput`), a `TeeServiceError`, or a panic that unwinds past the
handler. -/
inductive HandleResult where
  | ok
  | err : TeeServiceError → HandleResult
  | panicked : String → HandleResult
deriving DecidableEq, Repr

/-- Observable events of a `start_service` run, in program order. -/
inductive Event where
  | attestationAttempted
  | attestedTlsConfigBuilt
  | manifestVerified
  | policyConstructed
  | serverConfigBuilt
  | serverBuilt
  | clientConfigBuilt
  | clientEndpointBuilt
  | serviceCreated
  | serverStarted
  | serverExitLogged
deriving DecidableEq, Repr

/-- The environment of external calls made by `start_service`; each field
gives the result of one out-of-crate operation.  Modelled from the spec:
these operations (remote attestation, manifest signature verification, TLS
config assembly, service construction, the accept loop) live in other crates
of the repository, not under src/. -/
structure ExtEnv where
  generateAndEndorse : AttestationConfig → Option EndorsedAttestation
  attestedTlsConfigOf : EndorsedAttestation → Option AttestedTlsConfig
  verifyAndNew : Bytes → List Bytes → Bytes → Except Unit EnclaveInfo
  fromAttestedTlsConfig : AttestedTlsConfig → Option SgxTrustedTlsServerConfig
  serverVerifierOk : Bool
  serviceNew : Endpoint → Except Unit TeaclaveManagementService
  serverStart : SgxTrustedTlsServer → TeaclaveManagementService → Except String Unit

/-- `accepted_enclave_attrs` (lines 81-88): for each allow-listed role, look
up its identity in the verified manifest, panicking (`expect("enclave_info")`)
at the first missing role; `none` models that panic, `some` the collected
vector. -/
def accepted_enclave_attrs (ei : EnclaveInfo) : List String → Option (List EnclaveAttr)
  | [] => some []
  | role :: rest =>
    match ei.get_enclave_attr role with
    | none => none
    | some a => (accepted_enclave_attrs ei rest).map (fun l => a :: l)

/-- The full observable result of one `start_service` run: the events in
order, the endpoint configurations built (when reached), and the outcome. -/
structure StartTrace where
  events : List Event
  serverConfig : Option SgxTrustedTlsServerConfig
  clientConfig : Option SgxTrustedTlsClientConfig
  outcome : Outcome
deriving DecidableEq, Repr

/-- `start_service` (lines 53-126), step for step: build the attestation
config (55-61); run remote attestation and unwrap twice (62-67); read the
audit bytes with `expect` and verify the manifest with `?` (68-80); collect
the accepted enclave attrs with `expect` (81-88); build the server config,
unwrapping twice (89-96); build the server (97-101); look up the storage
service identity with `expect` and build the client config (103-111); build
the storage endpoint (113-116); construct the service with `?` (118); start
the server, logging a server-level error and returning `Ok(())` either way
(119-125).  -/
def start_service (config : RuntimeConfig) (bc : BuildConfig) (ext : ExtEnv) : StartTrace :=
  let ev0 := [Event.attestationAttempted]
  match ext.generateAndEndorse (attCfgOf config) with
  | none => ⟨ev0, none, none, Outcome.panicked "unwrap"⟩
  | some endorsed =>
  match ext.attestedTlsConfigOf endorsed with
  | none => ⟨ev0, none, none, Outcome.panicked "unwrap"⟩
  | some attested_tls_config =>
  let ev1 := ev0 ++ [Event.attestedTlsConfigBuilt]
  match config.audit.enclave_info_bytes with
  | none => ⟨ev1, none, none, Outcome.panicked "enclave_info"⟩
  | some enclave_info_bytes =>
  match config.audit.auditor_signatures_bytes with
  | none => ⟨ev1, none, none, Outcome.panicked "auditor signatures"⟩
  | some auditor_signatures_bytes =>
  match ext.verifyAndNew enclave_info_bytes (AUDITOR_PUBLIC_KEYS bc) auditor_signatures_bytes with
  | Except.error _ => ⟨ev1, none, none, Outcome.err StartError.manifestVerification⟩
  | Except.ok enclave_info =>
  let ev2 := ev1 ++ [Event.manifestVerified]
  match accepted_enclave_attrs enclave_info (INBOUND_SERVICES bc) with
  | none => ⟨ev2, none, none, Outcome.panicked "enclave_info"⟩
  | some attrs =>
  let ev3 := ev2 ++ [Event.policyConstructed]
  match ext.fromAttestedTlsConfig attested_tls_config with
  | none => ⟨ev3, none, none, Outcome.panicked "unwrap"⟩
  | some base_config =>
  match base_config.attestation_report_verifier ext.serverVerifierOk attrs
      (AS_ROOT_CA_CERT bc) QuoteVerifier.universal_quote_verifier with
  | none => ⟨ev3, none, none, Outcome.panicked "unwrap"⟩
  | some server_config =>
  let ev4 := ev3 ++ [Event.serverConfigBuilt]
  let server := SgxTrustedTlsServer.new config.management_listen_address server_config
  let ev5 := ev4 ++ [Event.serverBuilt]
  match enclave_info.get_enclave_attr "teaclave_storage_service" with
  | none => ⟨ev5, some server_config, none, Outcome.panicked "enclave_info"⟩
  | some storage_service_enclave_attrs =>
  let storage_service_client_config :=
    SgxTrustedTlsClientConfig.new.attestation_report_verifier
      [storage_service_enclave_attrs] (AS_ROOT_CA_CERT bc)
      QuoteVerifier.universal_quote_verifier
  let ev6 := ev5 ++ [Event.clientConfigBuilt]
  let storage_service_endpoint :=
    (Endpoint.new config.storage_advertised_address).config storage_service_client_config
  let ev7 := ev6 ++ [Event.clientEndpointBuilt]
  match ext.serviceNew storage_service_endpoint with
  | Except.error _ =>
      ⟨ev7, some server_config, some storage_service_client_config,
        Outcome.err StartError.serviceCreation⟩
  | Except.ok service =>
  let ev8 := ev7 ++ [Event.serviceCreated]
  match ext.serverStart server service with
  | Except.ok _ =>
      ⟨ev8 ++ [Event.serverStarted], some server_config,
        some storage_service_client_config, Outcome.ok⟩
  | Except.error _ =>
      ⟨ev8 ++ [Event.serverStarted, Event.serverExitLogged], some server_config,
        some storage_service_client_config, Outcome.ok⟩

/-- `handle_start_service` (lines 128-132): run `start_service`, mapping any
returned error to the opaque `TeeServiceError::ServiceError`; a panic unwinds
past the handler unchanged. -/
def handle_start_service (config : RuntimeConfig) (bc : BuildConfig) (ext : ExtEnv) :
    HandleResult :=
  match (start_service config bc ext).outcome with
  | Outcome.ok => HandleResult.ok
  | Outcome.err _ => HandleResult.err TeeServiceError.ServiceError
  | Outcome.panicked m => HandleResult.panicked m

/-- The event sequence of a run that reaches the accept loop and returns
cleanly. -/
def fullRunEvents : List Event :=
  [Event.attestationAttempted, Event.attestedTlsConfigBuilt, Event.manifestVerified,
   Event.policyConstructed, Event.serverConfigBuilt, Event.serverBuilt,
   Event.clientConfigBuilt, Event.clientEndpointBuilt, Event.serviceCreated,
   Event.serverStarted]

/-- A sample peer identity for the frontend role. -/
def attrA : EnclaveAttr := ⟨1⟩

/-- A sample peer identity for the storage role. -/
def attrS : EnclaveAttr := ⟨2⟩

/-- A sample verified manifest carrying both roles used in the examples. -/
def eiDemo : EnclaveInfo :=
  ⟨[("teaclave_frontend_service", attrA), ("teaclave_storage_service", attrS)]⟩

/-- A sample verified manifest missing the allow-listed frontend role. -/
def eiNoFrontend : EnclaveInfo := ⟨[("teaclave_storage_service", attrS)]⟩

/-- A sample build configuration whose inbound allow-list holds one role. -/
def bcDemo : BuildConfig := ⟨[7, 7], [[1, 2]], ["teaclave_frontend_service"]⟩

/-- A sample runtime configuration with both audit byte fields present. -/
def cfgDemo : RuntimeConfig :=
  ⟨"mgmt", "storage", ⟨"sgx_epid", "https://as", "k", "spid"⟩, ⟨some [1], some [2]⟩⟩

/-- A sample runtime configuration with `enclave_info_bytes` absent. -/
def cfgNoInfo : RuntimeConfig :=
  ⟨"mgmt", "storage", ⟨"sgx_epid", "https://as", "k", "spid"⟩, ⟨none, some [2]⟩⟩

/-- A sample runtime configuration with `auditor_signatures_bytes` absent. -/
def cfgNoSigs : RuntimeConfig :=
  ⟨"mgmt", "storage", ⟨"sgx_epid", "https://as", "k", "spid"⟩, ⟨some [1], none⟩⟩

/-- An environment in which every external operation succeeds. -/
def extDemo : ExtEnv :=
  ⟨fun _ => some ⟨0⟩, fun _ => some ⟨0⟩, fun _ _ _ => Except.ok eiDemo,
   fun tls => some ⟨tls, [], [], none⟩, true,
   fun e => Except.ok ⟨e⟩, fun _ _ => Except.ok ()⟩

/-- An environment in which remote attestation fails. -/
def extAttFail : ExtEnv :=
  ⟨fun _ => none, fun _ => some ⟨0⟩, fun _ _ _ => Except.ok eiDemo,
   fun tls => some ⟨tls, [], [], none⟩, true,
   fun e => Except.ok ⟨e⟩, fun _ _ => Except.ok ()⟩

/-- An environment in which manifest signature verification fails. -/
def extVerifyFail : ExtEnv :=
  ⟨fun _ => some ⟨0⟩, fun _ => some ⟨0⟩, fun _ _ _ => Except.error (),
   fun tls => some ⟨tls, [], [], none⟩, true,
   fun e => Except.ok ⟨e⟩, fun _ _ => Except.ok ()⟩

/-- An environment in which the verified manifest lacks the allow-listed
frontend role. -/
def extNoRole : ExtEnv :=
  ⟨fun _ => some ⟨0⟩, fun _ => some ⟨0⟩, fun _ _ _ => Except.ok eiNoFrontend,
   fun tls => some ⟨tls, [], [], none⟩, true,
   fun e => Except.ok ⟨e⟩, fun _ _ => Except.ok ()⟩

/-- An environment in which the accept loop exits with a server-level
error. -/
def extServerExit : ExtEnv :=
  ⟨fun _ => some ⟨0⟩, fun _ => some ⟨0⟩, fun _ _ _ => Except.ok eiDemo,
   fun tls => some ⟨tls, [], [], none⟩, true,
   fun e => Except.ok ⟨e⟩, fun _ _ => Except.error "listener crashed"⟩

/-- Collecting the accepted enclave attrs hits the `expect` panic exactly when
some allow-listed role has no identity in the verified manifest. -/
lemma accepted_enclave_attrs_none_iff (ei : EnclaveInfo) (roles : List String) :
    accepted_enclave_attrs ei roles = none ↔
      ∃ r, r ∈ roles ∧ ei.get_enclave_attr r = none := by
  induction roles with
  | nil => simp [accepted_enclave_attrs]
  | cons r rest ih =>
    cases h : ei.get_enclave_attr r with
    | none =>
      constructor
      · intro _
        exact ⟨r, List.mem_cons_self r rest, h⟩
      · intro _
        simp [accepted_enclave_attrs, h]
    | some a =>
      simp [accepted_enclave_attrs, h, Option.map_eq_none', ih]

/-- Claim C1 (amended): every error value returned by `start_service` is
collapsed by `handle_start_service` into the single opaque
`TeeServiceError::ServiceError`, with the internal cause discarded; however,
failures of attestation, policy construction or server-config assembly panic
(`unwrap`/`expect`) instead of returning an error value, so only failures
surfaced as `Err` (manifest verification, management-service construction)
reach the host as `ServiceError`. -/
theorem handle_start_service_collapses_errors (cfg : RuntimeConfig) (bc : BuildConfig)
    (ext : ExtEnv) :
    (∀ se, (start_service cfg bc ext).outcome = Outcome.err se →
      handle_start_service cfg bc ext = HandleResult.err TeeServiceError.ServiceError) ∧
    (∀ e, handle_start_service cfg bc ext = HandleResult.err e →
      e = TeeServiceError.ServiceError) := by
  constructor
  · intro se h
    simp [handle_start_service, h]
  · intro e _
    cases e
    rfl

/-- Claim C1 witness: a failed manifest verification is reported to the host
as exactly `ServiceError`. -/
theorem handle_start_service_collapses_errors_witness :
    handle_start_service cfgDemo bcDemo extVerifyFail =
      HandleResult.err TeeServiceError.ServiceError :=
  (handle_start_service_collapses_errors cfgDemo bcDemo extVerifyFail).1
    StartError.manifestVerification (by decide)

/-- Claim C1 counterexample: when remote attestation (a component of the
start sequence) fails, `start_service` panics on `unwrap`, so the host does
not receive `TeeServiceError::ServiceError` — refuting the claim that every
component failure is returned as the opaque `ServiceError`. -/
theorem handle_start_service_attestation_failure_not_ServiceError :
    handle_start_service cfgDemo bcDemo extAttFail = HandleResult.panicked "unwrap" ∧
    handle_start_service cfgDemo bcDemo extAttFail ≠
      HandleResult.err TeeServiceError.ServiceError := by
  decide

/-- Claim C7 (amended): when remote attestation fails — the endorsed quote or
the attested TLS material cannot be produced — `start_service` panics on
`unwrap` (it does not return an `AttestationError` error value); the run ends
immediately with no server or client endpoint constructed and exactly one
attestation attempt (no retry). -/
theorem attestation_failure_aborts_start (cfg : RuntimeConfig) (bc : BuildConfig)
    (ext : ExtEnv)
    (h : ext.generateAndEndorse (attCfgOf cfg) = none ∨
      ∃ ea, ext.generateAndEndorse (attCfgOf cfg) = some ea ∧
        ext.attestedTlsConfigOf ea = none) :
    start_service cfg bc ext =
      ⟨[Event.attestationAttempted], none, none, Outcome.panicked "unwrap"⟩ := by
  rcases h with h | ⟨ea, h1, h2⟩
  · simp [start_service, h]
  · simp [start_service, h1, h2]

/-- Claim C7 witness: a concrete run whose attestation fails ends in the
`unwrap` panic with no endpoints and a single attestation attempt. -/
theorem attestation_failure_aborts_start_witness :
    start_service cfgDemo bcDemo extAttFail =
      ⟨[Event.attestationAttempted], none, none, Outcome.panicked "unwrap"⟩ :=
  attestation_failure_aborts_start cfgDemo bcDemo extAttFail (Or.inl rfl)

/-- Claim C7 counterexample: with attestation failing, the outcome is a
panic, not an `AttestationError` (or any) error value — refuting the claim
that the start sequence fails with an `AttestationError` error value. -/
theorem attestation_failure_is_panic_not_error :
    (start_service cfgDemo bcDemo extAttFail).outcome = Outcome.panicked "unwrap" ∧
    (start_service cfgDemo bcDemo extAttFail).outcome ≠
      Outcome.err StartError.manifestVerification ∧
    (start_service cfgDemo bcDemo extAttFail).outcome ≠
      Outcome.err StartError.serviceCreation ∧
    (start_service cfgDemo bcDemo extAttFail).serverConfig = none ∧
    (start_service cfgDemo bcDemo extAttFail).clientConfig = none := by
  decide

/-- Claim C3 (amended): when attestation and manifest verification succeed
but some allow-listed role is absent from the verified manifest, policy
construction aborts by panicking on `expect("enclave_info")` — not by
returning a recoverable `UnknownPeerRoleError` value — and no partial policy
is ever produced: the run stops with no policy-constructed event, no server
config and no client config. -/
theorem missing_role_panics_no_partial_policy (cfg : RuntimeConfig) (bc : BuildConfig)
    (ext : ExtEnv) (ea : EndorsedAttestation) (tls : AttestedTlsConfig)
    (eib sigb : Bytes) (ei : EnclaveInfo)
    (h1 : ext.generateAndEndorse (attCfgOf cfg) = some ea)
    (h2 : ext.attestedTlsConfigOf ea = some tls)
    (h3 : cfg.audit.enclave_info_bytes = some eib)
    (h4 : cfg.audit.auditor_signatures_bytes = some sigb)
    (h5 : ext.verifyAndNew eib (AUDITOR_PUBLIC_KEYS bc) sigb = Except.ok ei)
    (h6 : ∃ r, r ∈ INBOUND_SERVICES bc ∧ ei.get_enclave_attr r = none) :
    start_service cfg bc ext =
      ⟨[Event.attestationAttempted, Event.attestedTlsConfigBuilt, Event.manifestVerified],
        none, none, Outcome.panicked "enclave_info"⟩ := by
  have h7 : accepted_enclave_attrs ei (INBOUND_SERVICES bc) = none :=
    (accepted_enclave_attrs_none_iff ei _).mpr h6
  simp [start_service, h1, h2, h3, h4, h5, h7]

/-- Claim C3 witness: a concrete allow-list whose role is missing from the
manifest makes `start_service` panic with no partial policy. -/
theorem missing_role_panics_no_partial_policy_witness :
    start_service cfgDemo bcDemo extNoRole =
      ⟨[Event.attestationAttempted, Event.attestedTlsConfigBuilt, Event.manifestVerified],
        none, none, Outcome.panicked "enclave_info"⟩ :=
  missing_role_panics_no_partial_policy cfgDemo bcDemo extNoRole ⟨0⟩ ⟨0⟩ [1] [2]
    eiNoFrontend rfl rfl rfl rfl rfl ⟨"teaclave_frontend_service", by decide⟩

/-- Claim C3 counterexample: with an allow-listed role absent from the
manifest the run panics with message "enclave_info"; it does not fail with a
recoverable error value of any kind — refuting the claim that policy
construction fails with an `UnknownPeerRoleError` error value. -/
theorem missing_role_is_panic_not_error :
    (start_service cfgDemo bcDemo extNoRole).outcome = Outcome.panicked "enclave_info" ∧
    (start_service cfgDemo bcDemo extNoRole).outcome ≠
      Outcome.err StartError.manifestVerification ∧
    (start_service cfgDemo bcDemo extNoRole).outcome ≠
      Outcome.err StartError.serviceCreation ∧
    Event.policyConstructed ∉ (start_service cfgDemo bcDemo extNoRole).events ∧
    (start_service cfgDemo bcDemo extNoRole).serverConfig = none := by
  decide

/-- Claim C2 (amended): the start sequence executes remote attestation first,
then manifest verification, then policy construction, then server-config and
server assembly, then client-config and client-endpoint construction, then
service creation and serving: every run that returns `Ok` produced exactly
this event sequence (with a trailing logged server exit when the accept loop
returned an error).  In particular attestation completes — and attested
channel material exists — before manifest verification begins, contrary to
the claimed §4.1→§4.2→§4.3 order. -/
theorem start_sequence_order (cfg : RuntimeConfig) (bc : BuildConfig) (ext : ExtEnv)
    (h : (start_service cfg bc ext).outcome = Outcome.ok) :
    (start_service cfg bc ext).events = fullRunEvents ∨
      (start_service cfg bc ext).events = fullRunEvents ++ [Event.serverExitLogged] := by
  simp only [start_service] at h ⊢
  repeat' split at h
  all_goals simp_all [fullRunEvents]

/-- Claim C2 witness: a fully successful concrete run exhibits the canonical
event order. -/
theorem start_sequence_order_witness :
    (start_service cfgDemo bcDemo extDemo).events = fullRunEvents ∨
      (start_service cfgDemo bcDemo extDemo).events =
        fullRunEvents ++ [Event.serverExitLogged] :=
  start_sequence_order cfgDemo bcDemo extDemo (by decide)

/-- Claim C2 counterexample: in a successful concrete run the attested TLS
material is built (second event) strictly before manifest verification
completes (third event) — refuting the claim that manifest verification is
completed before attestation begins and before any channel material
exists. -/
theorem attestation_precedes_manifest_verification :
    (start_service cfgDemo bcDemo extDemo).outcome = Outcome.ok ∧
    (start_service cfgDemo bcDemo extDemo).events.take 3 =
      [Event.attestationAttempted, Event.attestedTlsConfigBuilt, Event.manifestVerified] ∧
    Event.manifestVerified ∉ (start_service cfgDemo bcDemo extDemo).events.take 2 ∧
    Event.attestedTlsConfigBuilt ∈ (start_service cfgDemo bcDemo extDemo).events.take 2 := by
  decide

/-- Claim C4 (amended): when every allow-listed role resolves, the accepted
collection is a list whose length equals the allow-list length and whose
elements are exactly the manifest identities of allow-listed roles — but it
is a `Vec`, not a set: each allow-list occurrence contributes an entry, so
duplicate roles yield duplicate identities rather than collapsing. -/
theorem accepted_enclave_attrs_exact (ei : EnclaveInfo) (roles : List String)
    (attrs : List EnclaveAttr)
    (h : accepted_enclave_attrs ei roles = some attrs) :
    attrs.length = roles.length ∧
      ∀ a, a ∈ attrs ↔ ∃ r, r ∈ roles ∧ ei.get_enclave_attr r = some a := by
  induction roles generalizing attrs with
  | nil =>
    simp [accepted_enclave_attrs] at h
    subst h
    simp
  | cons r rest ih =>
    cases hr : ei.get_enclave_attr r with
    | none => simp [accepted_enclave_attrs, hr] at h
    | some a0 =>
      simp only [accepted_enclave_attrs, hr] at h
      cases hrest : accepted_enclave_attrs ei rest with
      | none => simp [hrest] at h
      | some tl =>
        rw [hrest] at h
        simp only [Option.map_some', Option.some.injEq] at h
        subst h
        obtain ⟨hlen, hmem⟩ := ih tl hrest
        constructor
        · simp [hlen]
        · intro a
          simp only [List.mem_cons]
          constructor
          · rintro (rfl | hmemtl)
            · exact ⟨r, Or.inl rfl, hr⟩
            · obtain ⟨r2, hr2, ha2⟩ := (hmem a).mp hmemtl
              exact ⟨r2, Or.inr hr2, ha2⟩
          · rintro ⟨r2, hr2mem, ha2⟩
            rcases hr2mem with rfl | htl
            · rw [hr] at ha2
              injection ha2 with hh
              exact Or.inl hh.symm
            · exact Or.inr ((hmem a).mpr ⟨r2, htl, ha2⟩)

/-- Claim C4 witness: a singleton allow-list yields exactly the one matching
identity. -/
theorem accepted_enclave_attrs_exact_witness :
    ([attrA].length = (["teaclave_frontend_service"] : List String).length) ∧
      ∀ a, a ∈ [attrA] ↔ ∃ r, r ∈ ["teaclave_frontend_service"] ∧
        eiDemo.get_enclave_attr r = some a :=
  accepted_enclave_attrs_exact eiDemo ["teaclave_frontend_service"] [attrA] (by decide)

/-- Claim C4 counterexample: a duplicated allow-list role produces the same
identity twice — the collection is not deduplicated, refuting the claimed
set semantics under which duplicates collapse to a single accepted
identity. -/
theorem accepted_enclave_attrs_duplicates_kept :
    accepted_enclave_attrs eiDemo
        ["teaclave_frontend_service", "teaclave_frontend_service"] =
      some [attrA, attrA] ∧
    ¬ ([attrA, attrA] : List EnclaveAttr).Nodup ∧
    accepted_enclave_attrs eiDemo
        ["teaclave_frontend_service", "teaclave_frontend_service"] ≠ some [attrA] := by
  decide

/-- Claim C5 (amended): whenever the manifest is rejected (malformed bytes or
failed signature verification), the run stops with no peer-trust policy, no
server endpoint and no client endpoint built — but the attested channel
material has already been built at that point, since attestation runs before
manifest verification. -/
theorem manifest_rejection_before_policy_and_endpoints (cfg : RuntimeConfig)
    (bc : BuildConfig) (ext : ExtEnv)
    (h : (start_service cfg bc ext).outcome = Outcome.err StartError.manifestVerification) :
    (start_service cfg bc ext).events =
      [Event.attestationAttempted, Event.attestedTlsConfigBuilt] ∧
    (start_service cfg bc ext).serverConfig = none ∧
    (start_service cfg bc ext).clientConfig = none := by
  simp only [start_service] at h ⊢
  repeat' split at h
  all_goals simp_all

/-- Claim C5 witness: a concrete run with failing manifest verification stops
with no policy or endpoints. -/
theorem manifest_rejection_before_policy_and_endpoints_witness :
    (start_service cfgDemo bcDemo extVerifyFail).events =
      [Event.attestationAttempted, Event.attestedTlsConfigBuilt] ∧
    (start_service cfgDemo bcDemo extVerifyFail).serverConfig = none ∧
    (start_service cfgDemo bcDemo extVerifyFail).clientConfig = none :=
  manifest_rejection_before_policy_and_endpoints cfgDemo bcDemo extVerifyFail (by decide)

/-- Claim C5 counterexample: in a concrete run whose manifest is rejected,
the attested channel material was already built before the rejection —
refuting the claim that no channel material exists in such a run. -/
theorem attested_material_built_before_manifest_rejection :
    (start_service cfgDemo bcDemo extVerifyFail).outcome =
      Outcome.err StartError.manifestVerification ∧
    Event.attestedTlsConfigBuilt ∈ (start_service cfgDemo bcDemo extVerifyFail).events := by
  decide

/-- Claim C6: if the server started and its accept loop later exited with a
server-level error, that exit was logged and `start_service` still returns
`Ok(())`, so `handle_start_service` reports success to the host — the
server-level failure detail is never propagated upward. -/
theorem server_exit_error_still_reports_success (cfg : RuntimeConfig) (bc : BuildConfig)
    (ext : ExtEnv)
    (h : Event.serverExitLogged ∈ (start_service cfg bc ext).events) :
    (start_service cfg bc ext).outcome = Outcome.ok ∧
    handle_start_service cfg bc ext = HandleResult.ok ∧
    Event.serverStarted ∈ (start_service cfg bc ext).events := by
  simp only [handle_start_service, start_service] at h ⊢
  repeat' split at h
  all_goals simp_all

/-- Claim C6 witness: a concrete run whose accept loop crashes still reports
success to the host. -/
theorem server_exit_error_still_reports_success_witness :
    (start_service cfgDemo bcDemo extServerExit).outcome = Outcome.ok ∧
    handle_start_service cfgDemo bcDemo extServerExit = HandleResult.ok ∧
    Event.serverStarted ∈ (start_service cfgDemo bcDemo extServerExit).events :=
  server_exit_error_still_reports_success cfgDemo bcDemo extServerExit (by decide)

/-- Claim C9: when the runtime configuration lacks `enclave_info_bytes` or
`auditor_signatures_bytes`, `start_service` panics (via `expect`, or via the
earlier attestation `unwrap` if that fails first) instead of returning an
error value, so the host never receives the opaque `ServiceError` result. -/
theorem missing_audit_bytes_panic_never_ServiceError (cfg : RuntimeConfig)
    (bc : BuildConfig) (ext : ExtEnv)
    (h : cfg.audit.enclave_info_bytes = none ∨
      cfg.audit.auditor_signatures_bytes = none) :
    (handle_start_service cfg bc ext = HandleResult.panicked "unwrap" ∨
     handle_start_service cfg bc ext = HandleResult.panicked "enclave_info" ∨
     handle_start_service cfg bc ext = HandleResult.panicked "auditor signatures") ∧
    handle_start_service cfg bc ext ≠ HandleResult.err TeeServiceError.ServiceError := by
  rcases hg : ext.generateAndEndorse (attCfgOf cfg) with _ | ea
  · exact ⟨Or.inl (by simp [handle_start_service, start_service, hg]),
      by simp [handle_start_service, start_service, hg]⟩
  rcases ht : ext.attestedTlsConfigOf ea with _ | tls
  · exact ⟨Or.inl (by simp [handle_start_service, start_service, hg, ht]),
      by simp [handle_start_service, start_service, hg, ht]⟩
  rcases hib : cfg.audit.enclave_info_bytes with _ | eib
  · exact ⟨Or.inr (Or.inl (by simp [handle_start_service, start_service, hg, ht, hib])),
      by simp [handle_start_service, start_service, hg, ht, hib]⟩
  rcases hsb : cfg.audit.auditor_signatures_bytes with _ | sigb
  · exact ⟨Or.inr (Or.inr (by simp [handle_start_service, start_service, hg, ht, hib, hsb])),
      by simp [handle_start_service, start_service, hg, ht, hib, hsb]⟩
  rcases h with h | h
  · rw [hib] at h
    exact absurd h (by simp)
  · rw [hsb] at h
    exact absurd h (by simp)

/-- Claim C9 witness: a configuration with `enclave_info_bytes` absent makes
the handler panic rather than return `ServiceError`. -/
theorem missing_audit_bytes_panic_never_ServiceError_witness :
    (handle_start_service cfgNoInfo bcDemo extDemo = HandleResult.panicked "unwrap" ∨
     handle_start_service cfgNoInfo bcDemo extDemo = HandleResult.panicked "enclave_info" ∨
     handle_start_service cfgNoInfo bcDemo extDemo =
       HandleResult.panicked "auditor signatures") ∧
    handle_start_service cfgNoInfo bcDemo extDemo ≠
      HandleResult.err TeeServiceError.ServiceError :=
  missing_audit_bytes_panic_never_ServiceError cfgNoInfo bcDemo extDemo (Or.inl rfl)

/-- Claim C8: the outbound storage client configuration trusts exactly one
backend identity — whenever a client config is built, its accepted set is the
one-element list holding precisely the verified manifest's identity for the
"teaclave_storage_service" role — and exactly one outbound endpoint is
constructed in that run. -/
theorem storage_client_trusts_single_backend_identity (cfg : RuntimeConfig)
    (bc : BuildConfig) (ext : ExtEnv) (cc : SgxTrustedTlsClientConfig)
    (hcc : (start_service cfg bc ext).clientConfig = some cc) :
    (∃ eib sigb ei sa,
      cfg.audit.enclave_info_bytes = some eib ∧
      cfg.audit.auditor_signatures_bytes = some sigb ∧
      ext.verifyAndNew eib (AUDITOR_PUBLIC_KEYS bc) sigb = Except.ok ei ∧
      ei.get_enclave_attr "teaclave_storage_service" = some sa ∧
      cc.accepted = [sa] ∧ cc.accepted.length = 1) ∧
    (start_service cfg bc ext).events.count Event.clientEndpointBuilt = 1 := by
  rcases hg : ext.generateAndEndorse (attCfgOf cfg) with _ | ea
  · simp [start_service, hg] at hcc
  rcases ht : ext.attestedTlsConfigOf ea with _ | tls
  · simp [start_service, hg, ht] at hcc
  rcases hib : cfg.audit.enclave_info_bytes with _ | eib
  · simp [start_service, hg, ht, hib] at hcc
  rcases hsb : cfg.audit.auditor_signatures_bytes with _ | sigb
  · simp [start_service, hg, ht, hib, hsb] at hcc
  rcases hv : ext.verifyAndNew eib (AUDITOR_PUBLIC_KEYS bc) sigb with e | ei
  · simp [start_service, hg, ht, hib, hsb, hv] at hcc
  rcases hacc : accepted_enclave_attrs ei (INBOUND_SERVICES bc) with _ | attrs
  · simp [start_service, hg, ht, hib, hsb, hv, hacc] at hcc
  rcases hf : ext.fromAttestedTlsConfig tls with _ | base
  · simp [start_service, hg, ht, hib, hsb, hv, hacc, hf] at hcc
  rcases hok : ext.serverVerifierOk with _ | _
  · simp [start_service, SgxTrustedTlsServerConfig.attestation_report_verifier,
      hg, ht, hib, hsb, hv, hacc, hf, hok] at hcc
  rcases hsa : ei.get_enclave_attr "teaclave_storage_service" with _ | sa
  · simp [start_service, SgxTrustedTlsServerConfig.attestation_report_verifier,
      hg, ht, hib, hsb, hv, hacc, hf, hok, hsa] at hcc
  rcases hn : ext.serviceNew ((Endpoint.new cfg.storage_advertised_address).config
      (SgxTrustedTlsClientConfig.new.attestation_report_verifier [sa]
        (AS_ROOT_CA_CERT bc) QuoteVerifier.universal_quote_verifier)) with e | svc
  · have htr : start_service cfg bc ext =
        ⟨[Event.attestationAttempted, Event.attestedTlsConfigBuilt, Event.manifestVerified,
          Event.policyConstructed, Event.serverConfigBuilt, Event.serverBuilt,
          Event.clientConfigBuilt, Event.clientEndpointBuilt],
         some ⟨base.tls, attrs, AS_ROOT_CA_CERT bc, some QuoteVerifier.universal_quote_verifier⟩,
         some (SgxTrustedTlsClientConfig.new.attestation_report_verifier [sa]
           (AS_ROOT_CA_CERT bc) QuoteVerifier.universal_quote_verifier),
         Outcome.err StartError.serviceCreation⟩ := by
      simp [start_service, SgxTrustedTlsServerConfig.attestation_report_verifier,
        hg, ht, hib, hsb, hv, hacc, hf, hok, hsa, hn]
    rw [htr] at hcc
    simp only [Option.some.injEq] at hcc
    subst hcc
    rw [htr]
    refine ⟨⟨eib, sigb, ei, sa, rfl, rfl, hv, hsa, ?_, ?_⟩, ?_⟩
    · simp [SgxTrustedTlsClientConfig.attestation_report_verifier]
    · simp [SgxTrustedTlsClientConfig.attestation_report_verifier]
    · rfl
  rcases hst : ext.serverStart (SgxTrustedTlsServer.new cfg.management_listen_address
      ⟨base.tls, attrs, AS_ROOT_CA_CERT bc, some QuoteVerifier.universal_quote_verifier⟩)
      svc with m | u
  · have htr : start_service cfg bc ext =
        ⟨[Event.attestationAttempted, Event.attestedTlsConfigBuilt, Event.manifestVerified,
          Event.policyConstructed, Event.serverConfigBuilt, Event.serverBuilt,
          Event.clientConfigBuilt, Event.clientEndpointBuilt, Event.serviceCreated,
          Event.serverStarted, Event.serverExitLogged],
         some ⟨base.tls, attrs, AS_ROOT_CA_CERT bc, some QuoteVerifier.universal_quote_verifier⟩,
         some (SgxTrustedTlsClientConfig.new.attestation_report_verifier [sa]
           (AS_ROOT_CA_CERT bc) QuoteVerifier.universal_quote_verifier),
         Outcome.ok⟩ := by
      simp [start_service, SgxTrustedTlsServerConfig.attestation_report_verifier,
        hg, ht, hib, hsb, hv, hacc, hf, hok, hsa, hn, hst]
    rw [htr] at hcc
    simp only [Option.some.injEq] at hcc
    subst hcc
    rw [htr]
    refine ⟨⟨eib, sigb, ei, sa, rfl, rfl, hv, hsa, ?_, ?_⟩, ?_⟩
    · simp [SgxTrustedTlsClientConfig.attestation_report_verifier]
    · simp [SgxTrustedTlsClientConfig.attestation_report_verifier]
    · rfl
  · have htr : start_service cfg bc ext =
        ⟨[Event.attestationAttempted, Event.attestedTlsConfigBuilt, Event.manifestVerified,
          Event.policyConstructed, Event.serverConfigBuilt, Event.serverBuilt,
          Event.clientConfigBuilt, Event.clientEndpointBuilt, Event.serviceCreated,
          Event.serverStarted],
         some ⟨base.tls, attrs, AS_ROOT_CA_CERT bc, some QuoteVerifier.universal_quote_verifier⟩,
         some (SgxTrustedTlsClientConfig.new.attestation_report_verifier [sa]
           (AS_ROOT_CA_CERT bc) QuoteVerifier.universal_quote_verifier),
         Outcome.ok⟩ := by
      simp [start_service, SgxTrustedTlsServerConfig.attestation_report_verifier,
        hg, ht, hib, hsb, hv, hacc, hf, hok, hsa, hn, hst]
    rw [htr] at hcc
    simp only [Option.some.injEq] at hcc
    subst hcc
    rw [htr]
    refine ⟨⟨eib, sigb, ei, sa, rfl, rfl, hv, hsa, ?_, ?_⟩, ?_⟩
    · simp [SgxTrustedTlsClientConfig.attestation_report_verifier]
    · simp [SgxTrustedTlsClientConfig.attestation_report_verifier]
    · rfl

/-- Claim C8 witness: in the fully successful concrete run the client config
accepts exactly the storage service identity and one outbound endpoint is
built. -/
theorem storage_client_trusts_single_backend_identity_witness :
    (∃ eib sigb ei sa,
      cfgDemo.audit.enclave_info_bytes = some eib ∧
      cfgDemo.audit.auditor_signatures_bytes = some sigb ∧
      extDemo.verifyAndNew eib (AUDITOR_PUBLIC_KEYS bcDemo) sigb = Except.ok ei ∧
      ei.get_enclave_attr "teaclave_storage_service" = some sa ∧
      (⟨[attrS], [7, 7], some QuoteVerifier.universal_quote_verifier⟩ :
        SgxTrustedTlsClientConfig).accepted = [sa] ∧
      (⟨[attrS], [7, 7], some QuoteVerifier.universal_quote_verifier⟩ :
        SgxTrustedTlsClientConfig).accepted.length = 1) ∧
    (start_service cfgDemo bcDemo extDemo).events.count Event.clientEndpointBuilt = 1 :=
  storage_client_trusts_single_backend_identity cfgDemo bcDemo extDemo
    ⟨[attrS], [7, 7], some QuoteVerifier.universal_quote_verifier⟩ (by decide)

/-- Claim C10: every endpoint configuration `start_service` builds — the
inbound server config and the outbound storage client config — carries the
same build-time attestation root CA certificate (`AS_ROOT_CA_CERT`) and the
same quote-verification function (`verifier::universal_quote_verifier`). -/
theorem endpoints_share_root_ca_and_quote_verifier (cfg : RuntimeConfig)
    (bc : BuildConfig) (ext : ExtEnv) :
    (∀ sc, (start_service cfg bc ext).serverConfig = some sc →
      sc.rootCa = AS_ROOT_CA_CERT bc ∧
      sc.verifier = some QuoteVerifier.universal_quote_verifier) ∧
    (∀ cc, (start_service cfg bc ext).clientConfig = some cc →
      cc.rootCa = AS_ROOT_CA_CERT bc ∧
      cc.verifier = some QuoteVerifier.universal_quote_verifier) := by
  rcases hg : ext.generateAndEndorse (attCfgOf cfg) with _ | ea
  · constructor <;> intro x hx <;> simp [start_service, hg] at hx
  rcases ht : ext.attestedTlsConfigOf ea with _ | tls
  · constructor <;> intro x hx <;> simp [start_service, hg, ht] at hx
  rcases hib : cfg.audit.enclave_info_bytes with _ | eib
  · constructor <;> intro x hx <;> simp [start_service, hg, ht, hib] at hx
  rcases hsb : cfg.audit.auditor_signatures_bytes with _ | sigb
  · constructor <;> intro x hx <;> simp [start_service, hg, ht, hib, hsb] at hx
  rcases hv : ext.verifyAndNew eib (AUDITOR_PUBLIC_KEYS bc) sigb with e | ei
  · constructor <;> intro x hx <;> simp [start_service, hg, ht, hib, hsb, hv] at hx
  rcases hacc : accepted_enclave_attrs ei (INBOUND_SERVICES bc) with _ | attrs
  · constructor <;> intro x hx <;> simp [start_service, hg, ht, hib, hsb, hv, hacc] at hx
  rcases hf : ext.fromAttestedTlsConfig tls with _ | base
  · constructor <;> intro x hx <;>
      simp [start_service, hg, ht, hib, hsb, hv, hacc, hf] at hx
  rcases hok : ext.serverVerifierOk with _ | _
  · constructor <;> intro x hx <;>
      simp [start_service, SgxTrustedTlsServerConfig.attestation_report_verifier,
        hg, ht, hib, hsb, hv, hacc, hf, hok] at hx
  constructor
  · intro sc hsc
    simp [start_service, SgxTrustedTlsServerConfig.attestation_report_verifier,
      hg, ht, hib, hsb, hv, hacc, hf, hok] at hsc
    repeat' split at hsc
    all_goals simp only [Option.some.injEq] at hsc
    all_goals subst hsc
    all_goals simp
  · intro cc hcc
    simp [start_service, SgxTrustedTlsServerConfig.attestation_report_verifier,
      hg, ht, hib, hsb, hv, hacc, hf, hok] at hcc
    repeat' split at hcc
    all_goals simp at hcc
    all_goals subst hcc
    all_goals simp [SgxTrustedTlsClientConfig.attestation_report_verifier]

/-- Claim C10 witness: in the fully successful concrete run, the built server
and client configs both carry the build-time root CA certificate and the
universal quote verifier. -/
theorem endpoints_share_root_ca_and_quote_verifier_witness :
    ((⟨⟨0⟩, [attrA], [7, 7], some QuoteVerifier.universal_quote_verifier⟩ :
        SgxTrustedTlsServerConfig).rootCa = AS_ROOT_CA_CERT bcDemo ∧
     (⟨⟨0⟩, [attrA], [7, 7], some QuoteVerifier.universal_quote_verifier⟩ :
        SgxTrustedTlsServerConfig).verifier = some QuoteVerifier.universal_quote_verifier) ∧
    ((⟨[attrS], [7, 7], some QuoteVerifier.universal_quote_verifier⟩ :
        SgxTrustedTlsClientConfig).rootCa = AS_ROOT_CA_CERT bcDemo ∧
     (⟨[attrS], [7, 7], some QuoteVerifier.universal_quote_verifier⟩ :
        SgxTrustedTlsClientConfig).verifier = some QuoteVerifier.universal_quote_verifier) :=
  ⟨(endpoints_share_root_ca_and_quote_verifier cfgDemo bcDemo extDemo).1 _ (by decide),
   (endpoints_share_root_ca_and_quote_verifier cfgDemo bcDemo extDemo).2 _ (by decide)⟩
